import Mathlib

/-!
Verification of the real-time game-session and chat subsystem of the
fake-stack-overflow application.

The first part of this file embeds, as plain Lean functions, the code of the
client game page hook (useGamePage.ts), the all-games page hook, the game-page
rendering component, and the chat service (chat.service.ts).  Stateful client
handlers become functions from their inputs (socket payloads, hook state) to
the new state or to the list of actions (service calls, socket emissions,
navigations) the handler performs, in the order the code performs them.
Asynchronous service calls are represented by a parameter carrying their
outcome.  The second part embeds, from the design document, the Nim rules
engine, whose server implementation is not part of the sources at hand.
-/

namespace FakeSO

/-- Status of a game session: waiting for players, running, or finished. -/
inductive GameStatus
  | WAITING
  | IN_PROGRESS
  | OVER
deriving DecidableEq

/-- The game-type-specific state object, which carries at minimum a status.
The client code embedded here inspects only the status field. -/
structure GameState where
  status : GameStatus
deriving DecidableEq

/-- The authoritative record of one game session, as seen by the client. -/
structure GameInstance where
  gameID : String
  gameType : String
  players : List String
  state : GameState
deriving DecidableEq

/-- Payload of a gameError socket notification. -/
structure GameErrorPayload where
  player : String
  error : String
deriving DecidableEq

/-- Payload of a gameUpdate socket notification. -/
structure GameUpdatePayload where
  gameState : GameInstance
deriving DecidableEq

/-- handleGameError in useGamePage.ts: on a gameError payload, the client
sets its error state to the payload message when the payload names this
client, and otherwise leaves the error state alone. -/
def handleGameError (payload : GameErrorPayload) (username : String)
    (errorState : Option String) : Option String :=
  if payload.player = username then some payload.error else errorState

/-- handleGameUpdate in useGamePage.ts: on a gameUpdate payload, the client
replaces its gameState with the instance carried by the payload. -/
def handleGameUpdate (update : GameUpdatePayload)
    (gameState : Option GameInstance) : Option GameInstance :=
  some update.gameState

/-- An observable client action: a REST service call, a state update, a
socket emission, or a navigation. -/
inductive ClientAction
  | createGameCall (gameType : String)
  | joinGameCall (gameID username : String)
  | setGameState (game : GameInstance)
  | setJoinedGameID (gameID : String)
  | emitJoinGame (gameID : String)
  | setError (msg : String)
  | navigate (path : String)
  | leaveGameCall (gameID username : String)
  | emitLeaveGame (gameID : String)
deriving DecidableEq

/-- handleJoinGame in useGamePage.ts, as the ordered list of actions it
performs: it awaits the joinGame REST call first; on success it stores the
returned game, records the joined id and only then emits the joinGame socket
signal; on failure it sets a local error message and navigates back. -/
def handleJoinGame (id username : String)
    (joinResult : Option GameInstance) : List ClientAction :=
  match joinResult with
  | some game =>
      [ClientAction.joinGameCall id username,
       ClientAction.setGameState game,
       ClientAction.setJoinedGameID id,
       ClientAction.emitJoinGame id]
  | none =>
      [ClientAction.joinGameCall id username,
       ClientAction.setError "Failed to join game. Please try again.",
       ClientAction.navigate "/games"]

/-- handleCreateGame in useAllGamesPage: it awaits createGame with only the
game type as argument, and on success navigates to the page of the new game. -/
def handleCreateGame (gameType : String)
    (createResult : Option String) : List ClientAction :=
  match createResult with
  | some newGameID =>
      [ClientAction.createGameCall gameType,
       ClientAction.navigate (String.append "/games/" newGameID)]
  | none =>
      [ClientAction.createGameCall gameType]

/-- The client flow from pressing create to sitting in the new game: the
all-games page creates the game and navigates to its page, whose useGamePage
effect then runs handleJoinGame on the id from the route. -/
def createAndEnterFlow (gameType username newGameID : String)
    (joinResult : Option GameInstance) : List ClientAction :=
  List.append (handleCreateGame gameType (some newGameID))
    (handleJoinGame newGameID username joinResult)

/-- The status carried by an optional game instance, mirroring the optional
chaining in the client condition. -/
def statusOf (gameState : Option GameInstance) : Option GameStatus :=
  gameState.map (fun g => g.state.status)

/-- handleLeaveGame in useGamePage.ts, as the ordered list of actions it
performs: when a game id has been joined and the optional-chained status is
not OVER, it awaits the leaveGame REST call and, unless that call failed,
emits the leaveGame socket signal; in every case it navigates to the games
list. -/
def handleLeaveGame (joinedGameID : Option String) (username : String)
    (gameState : Option GameInstance) (leaveSucceeds : Bool) :
    List ClientAction :=
  match joinedGameID with
  | some id =>
      if statusOf gameState ≠ some GameStatus.OVER then
        List.append
          (if leaveSucceeds then
            [ClientAction.leaveGameCall id username,
             ClientAction.emitLeaveGame id]
          else
            [ClientAction.leaveGameCall id username])
          [ClientAction.navigate "/games"]
      else
        [ClientAction.navigate "/games"]
  | none => [ClientAction.navigate "/games"]

/-- Whether the first occurrence of action a in the trace is followed,
strictly later, by an occurrence of action b. -/
def precedes (a b : ClientAction) : List ClientAction → Bool
  | [] => false
  | x :: rest => if x = a then rest.contains b else precedes a b rest

/-- Result of rendering the game component for a game type. -/
inductive RenderResult
  | loadingGame
  | nimGamePage (game : GameInstance)
  | unsupportedGameType (gameType : String)
deriving DecidableEq

/-- The toUpperCase call of the rendering switch: upper-cases every
character of the string (the game-type names in play are ASCII). -/
def toUpperCase (s : String) : String := String.mk (s.data.map Char.toUpper)

/-- renderGameComponent in the GamePage component: with no loaded state it
shows a loading stub; otherwise it switches on the upper-cased game type,
rendering the Nim page for NIM and a fallback for every other type. -/
def renderGameComponent (gameState : Option GameInstance)
    (gameType : String) : RenderResult :=
  match gameState with
  | none => RenderResult.loadingGame
  | some game =>
      if toUpperCase gameType = "NIM" then RenderResult.nimGamePage game
      else RenderResult.unsupportedGameType gameType

/-- A chat document: its participants and the ids of its messages. -/
structure ChatDoc where
  participants : List String
  messages : List String
deriving DecidableEq

/-- A message document as stored by the message model. -/
structure MessageDoc where
  msg : String
  msgFrom : String
  msgType : String
deriving DecidableEq

/-- Result type of the chat service functions: the document on success, or an
object with an error field. -/
inductive ChatResponse
  | chat (c : ChatDoc)
  | error (msg : String)
deriving DecidableEq

/-- Result type of createMessage: the message document or an error object. -/
inductive MessageResponse
  | message (m : MessageDoc)
  | error (msg : String)
deriving DecidableEq

/-- The chat collection, keyed by chat id. -/
def ChatDB := List (String × ChatDoc)

/-- Database lookup of a chat by id (Mongo findById). -/
def findChat (db : ChatDB) (chatId : String) : Option ChatDoc :=
  match db with
  | [] => none
  | (k, d) :: rest => if k = chatId then some d else findChat rest chatId

/-- Database write-back of an updated chat document under its id. -/
def setChat (db : ChatDB) (chatId : String) (d : ChatDoc) : ChatDB :=
  match db with
  | [] => []
  | (k, e) :: rest =>
      if k = chatId then (k, d) :: setChat rest chatId d
      else (k, e) :: setChat rest chatId d

/-- Semantics of the Mongo addToSet update operator on an array field: the
value is appended unless it is already present. -/
def addToSet (l : List String) (x : String) : List String :=
  if x ∈ l then l else List.append l [x]

/-- addParticipantToChat in chat.service.ts: findByIdAndUpdate with an
addToSet on participants and the new document returned.  A thrown database
error is caught and returned as an error object; a null result maps to the
Chat-not-found error; otherwise the updated document is written back and
returned. -/
def addParticipantToChat (dbFailure : Bool) (db : ChatDB)
    (chatId userId : String) : ChatDB × ChatResponse :=
  if dbFailure then (db, ChatResponse.error "Failed to add participant")
  else
    match findChat db chatId with
    | none => (db, ChatResponse.error "Chat not found")
    | some doc =>
        let updated : ChatDoc :=
          { doc with participants := addToSet doc.participants userId }
        (setChat db chatId updated, ChatResponse.chat updated)

/-- saveChat in chat.service.ts: it creates each payload message in turn and
then saves the chat document; any thrown database error — from a message
create or from the save — is caught and mapped to the same error object,
otherwise the saved chat is returned.  The message-create and save outcomes
are passed in as parameters. -/
def saveChat (messageCreates : List (Except String String))
    (chatSave : Except String ChatDoc) : ChatResponse :=
  if messageCreates.any (fun r =>
      match r with | Except.error _ => true | Except.ok _ => false) then
    ChatResponse.error "Failed to create chat"
  else
    match chatSave with
    | Except.ok saved => ChatResponse.chat saved
    | Except.error _ => ChatResponse.error "Failed to create chat"

/-- createMessage in chat.service.ts: the created message document, with a
thrown database error caught and returned as an error object. -/
def createMessage (dbCreate : Except String MessageDoc) : MessageResponse :=
  match dbCreate with
  | Except.ok m => MessageResponse.message m
  | Except.error _ => MessageResponse.error "Failed to create message"

/-- addMessageToChat in chat.service.ts: findByIdAndUpdate pushing the
message id; null maps to Chat-not-found, a thrown error is caught. -/
def addMessageToChat (dbUpdate : Except String (Option ChatDoc)) :
    ChatResponse :=
  match dbUpdate with
  | Except.ok (some c) => ChatResponse.chat c
  | Except.ok none => ChatResponse.error "Chat not found"
  | Except.error _ => ChatResponse.error "Failed to add message to chat"

/-- getChat in chat.service.ts: findById with populated messages; null maps
to Chat-not-found, a thrown error is caught. -/
def getChat (dbFind : Except String (Option ChatDoc)) : ChatResponse :=
  match dbFind with
  | Except.ok (some c) => ChatResponse.chat c
  | Except.ok none => ChatResponse.error "Chat not found"
  | Except.error _ => ChatResponse.error "Failed to retrieve chat"

/-- getChatsByParticipants in chat.service.ts: the list of matching chats,
with a thrown database error caught and mapped to the empty array. -/
def getChatsByParticipants (dbFind : Except String (List ChatDoc)) :
    List ChatDoc :=
  match dbFind with
  | Except.ok chats => chats
  | Except.error _ => []

/-- Typed rejections of the rules engine. -/
inductive MoveError
  | NotYourTurn
  | InvalidQuantity
  | GameOver
deriving DecidableEq

/-- Modelled from the spec: the server-side Nim game state — the sources at
hand contain only the clients of the game API, not the rules engine itself.
Per the design document the state holds the status, the remaining-object
count, the joined players in turn order, the recorded current turn-holder
and the winner once decided. -/
structure NimState where
  status : GameStatus
  remaining : Nat
  players : List String
  currentTurn : String
  winner : Option String
deriving DecidableEq

/-- Position of a player in the join-order list. -/
def indexIn (players : List String) (current : String) : Option Nat :=
  match players with
  | [] => none
  | p :: rest =>
      if p = current then some 0
      else (indexIn rest current).map (fun i => i + 1)

/-- The next player in join order, wrapping around. -/
def nextTurn (players : List String) (current : String) : String :=
  match indexIn players current with
  | some i => players.getD ((i + 1) % players.length) current
  | none => current

/-- Modelled from the spec: applyMove of the Nim rules engine, absent from
the sources at hand.  It rejects with NotYourTurn when the submitting player
is not the recorded turn-holder, with InvalidQuantity when the requested
removal is outside the range from 1 to the minimum of 3 and the remaining
count, and with GameOver when the game is not in progress.  A legal move
decrements the pile; emptying it ends the game and records the winner by the
configured convention, otherwise the turn advances to the next player in
join order. -/
def applyMove (lastTakeWins : Bool) (s : NimState) (playerId : String)
    (numObjects : Nat) : Except MoveError NimState :=
  if playerId ≠ s.currentTurn then Except.error MoveError.NotYourTurn
  else if numObjects < 1 ∨ min 3 s.remaining < numObjects then
    Except.error MoveError.InvalidQuantity
  else if s.status ≠ GameStatus.IN_PROGRESS then
    Except.error MoveError.GameOver
  else if s.remaining - numObjects = 0 then
    Except.ok { s with
      remaining := 0
      status := GameStatus.OVER
      winner := if lastTakeWins then some playerId
                else some (nextTurn s.players playerId) }
  else
    Except.ok { s with
      remaining := s.remaining - numObjects
      currentTurn := nextTurn s.players playerId }

/-- The state the session holds after a submitMove: the new state when the
engine accepted the move, the untouched old state when it rejected it. -/
def applyMoveResultState (lastTakeWins : Bool) (s : NimState)
    (playerId : String) (numObjects : Nat) : NimState :=
  match applyMove lastTakeWins s playerId numObjects with
  | Except.ok next => next
  | Except.error _ => s

/-! ## Helper lemmas -/

lemma addToSet_of_mem {l : List String} {x : String} (h : x ∈ l) :
    addToSet l x = l := by
  simp [addToSet, h]

lemma mem_addToSet_self (l : List String) (x : String) : x ∈ addToSet l x := by
  by_cases h : x ∈ l <;> simp [addToSet, h]

lemma addToSet_idem (l : List String) (x : String) :
    addToSet (addToSet l x) x = addToSet l x :=
  addToSet_of_mem (mem_addToSet_self l x)

lemma findChat_setChat (db : ChatDB) (c : String) (d : ChatDoc) :
    findChat (setChat db c d) c = (findChat db c).map (fun _ => d) := by
  induction db with
  | nil => rfl
  | cons kv rest ih =>
      obtain ⟨k, e⟩ := kv
      by_cases h : k = c <;> simp [setChat, findChat, h, ih]

lemma setChat_setChat (db : ChatDB) (c : String) (d1 d2 : ChatDoc) :
    setChat (setChat db c d1) c d2 = setChat db c d2 := by
  induction db with
  | nil => rfl
  | cons kv rest ih =>
      obtain ⟨k, e⟩ := kv
      by_cases h : k = c <;> simp [setChat, h, ih]

/-- A concrete in-progress Nim session used to instantiate the theorems. -/
def nimInstance : GameInstance :=
  { gameID := "game1"
    gameType := "NIM"
    players := ["alice", "bob"]
    state := { status := GameStatus.IN_PROGRESS } }

/-! ## Claim theorems -/

/-- Claim C1: a gameError payload updates the client error state to the
payload message exactly when the payload names this client username; a
payload addressed to a different player leaves the error state unchanged. -/
theorem gameError_unicast_to_offender (payload : GameErrorPayload)
    (username : String) (errorState : Option String) :
    (payload.player = username →
      handleGameError payload username errorState = some payload.error) ∧
    (payload.player ≠ username →
      handleGameError payload username errorState = errorState) := by
  constructor <;> intro h <;> simp [handleGameError, h]

/-- Witness for claim C1 at a concrete payload, matching and non-matching
client. -/
theorem gameError_unicast_to_offender_witness :
    handleGameError ⟨"alice", "Invalid move"⟩ "alice" none =
      some "Invalid move" ∧
    handleGameError ⟨"alice", "Invalid move"⟩ "bob" (some "old") =
      some "old" :=
  ⟨(gameError_unicast_to_offender ⟨"alice", "Invalid move"⟩ "alice" none).1
      rfl,
   (gameError_unicast_to_offender ⟨"alice", "Invalid move"⟩ "bob"
      (some "old")).2 (by decide)⟩

/-- Claim C2: a gameUpdate payload is a full snapshot — afterwards the client
gameState equals exactly the instance carried in the payload, independent of
the state held before. -/
theorem gameUpdate_full_snapshot (update : GameUpdatePayload)
    (prev other : Option GameInstance) :
    handleGameUpdate update prev = some update.gameState ∧
    handleGameUpdate update prev = handleGameUpdate update other :=
  ⟨rfl, rfl⟩

/-- Claim C5: rendering a loaded game state is a total switch on the
upper-cased game type — NIM yields the Nim component, every other type the
unsupported-game-type fallback. -/
theorem renderGameComponent_total_switch (game : GameInstance)
    (gameType : String) :
    (toUpperCase gameType = "NIM" →
      renderGameComponent (some game) gameType =
        RenderResult.nimGamePage game) ∧
    (toUpperCase gameType ≠ "NIM" →
      renderGameComponent (some game) gameType =
        RenderResult.unsupportedGameType gameType) := by
  constructor <;> intro h <;> simp [renderGameComponent, h]

/-- Witness for claim C5 at the concrete types Nim (upper-cased to NIM) and
Chess. -/
theorem renderGameComponent_total_switch_witness :
    renderGameComponent (some nimInstance) "Nim" =
      RenderResult.nimGamePage nimInstance ∧
    renderGameComponent (some nimInstance) "Chess" =
      RenderResult.unsupportedGameType "Chess" :=
  ⟨(renderGameComponent_total_switch nimInstance "Nim").1 (by decide),
   (renderGameComponent_total_switch nimInstance "Chess").2 (by decide)⟩

/-- A concrete in-progress server-side Nim state with alice to move. -/
def nimServerState : NimState :=
  { status := GameStatus.IN_PROGRESS
    remaining := 21
    players := ["alice", "bob"]
    currentTurn := "alice"
    winner := none }

/-- A concrete finished session, used to instantiate the leave-flow guard. -/
def overInstance : GameInstance :=
  { gameID := "game1"
    gameType := "NIM"
    players := ["alice", "bob"]
    state := { status := GameStatus.OVER } }

/-- Claim C7: on an in-progress state, a move submitted by a player other
than the recorded turn-holder is rejected with NotYourTurn and the session
state is left unchanged. -/
theorem applyMove_not_your_turn (lastTakeWins : Bool) (s : NimState)
    (playerId : String) (numObjects : Nat)
    (hstatus : s.status = GameStatus.IN_PROGRESS)
    (hturn : playerId ≠ s.currentTurn) :
    applyMove lastTakeWins s playerId numObjects =
      Except.error MoveError.NotYourTurn ∧
    applyMoveResultState lastTakeWins s playerId numObjects = s := by
  refine ⟨?_, ?_⟩ <;> simp [applyMove, applyMoveResultState, hturn]

/-- Witness for claim C7: bob moving while alice holds the turn. -/
theorem applyMove_not_your_turn_witness :
    applyMove true nimServerState "bob" 2 =
      Except.error MoveError.NotYourTurn ∧
    applyMoveResultState true nimServerState "bob" 2 = nimServerState :=
  applyMove_not_your_turn true nimServerState "bob" 2 rfl (by decide)

/-- Claim C8: the leave flow issues a leave request (the leaveGame call or
the leaveGame signal) only when a game id has been joined and the held
status is not OVER; with status OVER it performs no leave request at all,
and in every case it navigates to the games list. -/
theorem handleLeaveGame_guarded (joinedGameID : Option String)
    (username : String) (gameState : Option GameInstance)
    (leaveSucceeds : Bool) :
    ((∃ gid u, ClientAction.leaveGameCall gid u ∈
        handleLeaveGame joinedGameID username gameState leaveSucceeds) ∨
     (∃ gid, ClientAction.emitLeaveGame gid ∈
        handleLeaveGame joinedGameID username gameState leaveSucceeds) →
      joinedGameID.isSome = true ∧
        statusOf gameState ≠ some GameStatus.OVER) ∧
    (statusOf gameState = some GameStatus.OVER →
      handleLeaveGame joinedGameID username gameState leaveSucceeds =
        [ClientAction.navigate "/games"]) ∧
    ClientAction.navigate "/games" ∈
      handleLeaveGame joinedGameID username gameState leaveSucceeds := by
  cases joinedGameID with
  | none => refine ⟨?_, ?_, ?_⟩ <;> simp [handleLeaveGame]
  | some id =>
      by_cases h : statusOf gameState = some GameStatus.OVER <;>
        refine ⟨?_, ?_, ?_⟩ <;> cases leaveSucceeds <;>
        simp [handleLeaveGame, h]

/-- Witness for claim C8: with the game already OVER the flow is only the
navigation back to the games list. -/
theorem handleLeaveGame_guarded_witness :
    handleLeaveGame (some "game1") "alice" (some overInstance) true =
      [ClientAction.navigate "/games"] :=
  (handleLeaveGame_guarded (some "game1") "alice"
    (some overInstance) true).2.1 rfl

/-- Claim C4 as stated fails on the code: at a concrete join, the client
trace performs the joinGame invocation first and the subscription signal
last, so the subscription never precedes the joinGame invocation. -/
theorem join_subscribe_order_counterexample :
    handleJoinGame "game1" "alice" (some nimInstance) =
      [ClientAction.joinGameCall "game1" "alice",
       ClientAction.setGameState nimInstance,
       ClientAction.setJoinedGameID "game1",
       ClientAction.emitJoinGame "game1"] ∧
    precedes (ClientAction.emitJoinGame "game1")
      (ClientAction.joinGameCall "game1" "alice")
      (handleJoinGame "game1" "alice" (some nimInstance)) = false :=
  ⟨rfl, by decide⟩

/-- Claim C4 (amended): the client invokes joinGame first and only then
emits the join-session subscription signal; on success the joiner stores the
full GameInstance returned by the join, and on failure it only records an
error locally, emits no subscription signal, and navigates back. -/
theorem handleJoinGame_join_then_subscribe (id username : String)
    (game : GameInstance) :
    precedes (ClientAction.joinGameCall id username)
      (ClientAction.emitJoinGame id)
      (handleJoinGame id username (some game)) = true ∧
    ClientAction.setGameState game ∈ handleJoinGame id username (some game) ∧
    ClientAction.setError "Failed to join game. Please try again." ∈
      handleJoinGame id username none ∧
    (handleJoinGame id username none).contains (ClientAction.emitJoinGame id)
      = false ∧
    ClientAction.navigate "/games" ∈ handleJoinGame id username none := by
  refine ⟨?_, ?_, ?_, ?_, ?_⟩ <;> simp [handleJoinGame, precedes]

/-- Claim C3 as stated fails on the code: the create request carries only
the game type and no requesting player, and the flow that seats the creator
contains a separate joinGame step after the create call. -/
theorem createGame_autojoin_counterexample :
    handleCreateGame "NIM" (some "game1") =
      [ClientAction.createGameCall "NIM",
       ClientAction.navigate "/games/game1"] ∧
    precedes (ClientAction.createGameCall "NIM")
      (ClientAction.joinGameCall "game1" "alice")
      (createAndEnterFlow "NIM" "alice" "game1" (some nimInstance)) = true :=
  ⟨rfl, by decide⟩

/-- Claim C3 (amended): createGame issues the create request with only the
game type and navigates to the new game page; the requesting player becomes
a member through the separate joinGame step that page performs. -/
theorem createGame_then_separate_join (gameType username newGameID : String)
    (game : GameInstance) :
    createAndEnterFlow gameType username newGameID (some game) =
      [ClientAction.createGameCall gameType,
       ClientAction.navigate (String.append "/games/" newGameID),
       ClientAction.joinGameCall newGameID username,
       ClientAction.setGameState game,
       ClientAction.setJoinedGameID newGameID,
       ClientAction.emitJoinGame newGameID] := rfl

lemma chatResponse_cases (r : ChatResponse) :
    (∃ c, r = ChatResponse.chat c) ∨ (∃ m, r = ChatResponse.error m) := by
  cases r with
  | chat c => exact Or.inl ⟨c, rfl⟩
  | error m => exact Or.inr ⟨m, rfl⟩

lemma messageResponse_cases (r : MessageResponse) :
    (∃ c, r = MessageResponse.message c) ∨
    (∃ m, r = MessageResponse.error m) := by
  cases r with
  | message c => exact Or.inl ⟨c, rfl⟩
  | error m => exact Or.inr ⟨m, rfl⟩

/-- Claim C9: addParticipantToChat is idempotent on the participants list —
adding an already-present participant returns the chat document unchanged,
and applying the operation twice with the same user equals applying it
once. -/
theorem addParticipantToChat_idempotent (db : ChatDB)
    (chatId userId : String) :
    (∀ doc, findChat db chatId = some doc → userId ∈ doc.participants →
      addParticipantToChat false db chatId userId =
        (setChat db chatId doc, ChatResponse.chat doc)) ∧
    addParticipantToChat false
        (addParticipantToChat false db chatId userId).1 chatId userId =
      addParticipantToChat false db chatId userId := by
  constructor
  · intro doc hfind hmem
    simp [addParticipantToChat, hfind, addToSet_of_mem hmem]
  · cases hfind : findChat db chatId with
    | none => simp [addParticipantToChat, hfind]
    | some doc =>
        have h1 : findChat (setChat db chatId
            { doc with participants := addToSet doc.participants userId })
            chatId =
            some { doc with
              participants := addToSet doc.participants userId } := by
          rw [findChat_setChat, hfind]
          rfl
        simp [addParticipantToChat, hfind, h1, addToSet_idem, setChat_setChat]

/-- Witness for claim C9: adding alice to a chat she already participates in
returns the document with the participants list unchanged. -/
theorem addParticipantToChat_idempotent_witness :
    addParticipantToChat false [("chat1", ⟨["alice"], []⟩)] "chat1" "alice" =
      (setChat [("chat1", ⟨["alice"], []⟩)] "chat1" ⟨["alice"], []⟩,
       ChatResponse.chat ⟨["alice"], []⟩) :=
  (addParticipantToChat_idempotent [("chat1", ⟨["alice"], []⟩)]
    "chat1" "alice").1 ⟨["alice"], []⟩ rfl (by decide)

/-- Claim C10: every chat service function is total over failures — for
every database outcome each of saveChat, createMessage, addMessageToChat,
getChat and addParticipantToChat returns the document or an error object,
each maps a thrown database error to its catch-clause error object, and
getChatsByParticipants maps a database error to the empty array. -/
theorem chatService_total_over_failures
    (messageCreates : List (Except String String))
    (chatSave : Except String ChatDoc)
    (dbCreate : Except String MessageDoc)
    (dbUpdate dbFind : Except String (Option ChatDoc))
    (dbFailure : Bool) (db : ChatDB) (chatId userId e : String) :
    ((∃ c, saveChat messageCreates chatSave = ChatResponse.chat c) ∨
     (∃ m, saveChat messageCreates chatSave = ChatResponse.error m)) ∧
    ((∃ c, createMessage dbCreate = MessageResponse.message c) ∨
     (∃ m, createMessage dbCreate = MessageResponse.error m)) ∧
    ((∃ c, addMessageToChat dbUpdate = ChatResponse.chat c) ∨
     (∃ m, addMessageToChat dbUpdate = ChatResponse.error m)) ∧
    ((∃ c, getChat dbFind = ChatResponse.chat c) ∨
     (∃ m, getChat dbFind = ChatResponse.error m)) ∧
    ((∃ c, (addParticipantToChat dbFailure db chatId userId).2 =
        ChatResponse.chat c) ∨
     (∃ m, (addParticipantToChat dbFailure db chatId userId).2 =
        ChatResponse.error m)) ∧
    saveChat messageCreates (Except.error e) =
      ChatResponse.error "Failed to create chat" ∧
    saveChat (Except.error e :: messageCreates) chatSave =
      ChatResponse.error "Failed to create chat" ∧
    createMessage (Except.error e) =
      MessageResponse.error "Failed to create message" ∧
    addMessageToChat (Except.error e) =
      ChatResponse.error "Failed to add message to chat" ∧
    getChat (Except.error e) = ChatResponse.error "Failed to retrieve chat" ∧
    addParticipantToChat true db chatId userId =
      (db, ChatResponse.error "Failed to add participant") ∧
    getChatsByParticipants (Except.error e) = ([] : List ChatDoc) := by
  refine ⟨chatResponse_cases _, messageResponse_cases _,
    chatResponse_cases _, chatResponse_cases _, chatResponse_cases _,
    ?_, ?_, rfl, rfl, rfl, rfl, rfl⟩
  · by_cases h : messageCreates.any (fun r =>
      match r with | Except.error _ => true | Except.ok _ => false) <;>
      simp [saveChat, h]
  · simp [saveChat]

end FakeSO
